import Mathlib

/-!
Shallow embedding of the `config` Go package (schneider.vip/config): a
generic configuration loader built on top of viper.  The embedding models
the package's own code — the `Loader[T]` struct, its functional options,
`New`, `Parse`, `Load`, `StartWatcher` and the change handler it registers —
as pure Lean functions with explicit state passing.  The external
collaborators (viper's decoded settings tree, the mapstructure unmarshal
step, the filesystem) are modelled as black-box data: the settings are a
key/value tree, unmarshalling is a caller-supplied decode function
`Settings → Except String T`, and file reading is a function
`String → Option Settings` (`none` models a read failure).  Logging and the
change callback are modelled as explicit event traces, and the watcher
state (viper's single `onConfigChange` handler slot plus the number of
`WatchConfig` goroutines) is carried in the viper model.
-/

/-- A decoded configuration value, as held by viper's settings map:
a scalar (string or integer) or a nested table of key/value pairs. -/
inductive ConfigValue where
  | str (s : String)
  | num (n : Int)
  | table (entries : List (String × ConfigValue))
deriving Repr

/-- The decoded settings of a viper instance: a top-level key/value map. -/
abbrev Settings := List (String × ConfigValue)

/-- Association-list lookup in a settings map (models `viper.Get` for a
plain key under the `_` key delimiter). -/
def lookupKey (s : Settings) (k : String) : Option ConfigValue :=
  match s with
  | [] => none
  | (k', v) :: rest => if k' = k then some v else lookupKey rest k

/-- Model of `viper.Sub(key)`: returns the sub-tree when `key` maps to a
table, and `none` (Go: `nil`) when the key is absent or not a table. -/
def viperSub (s : Settings) (key : String) : Option Settings :=
  match lookupKey s key with
  | some (ConfigValue.table entries) => some entries
  | _ => none

/-- Model of a `*viper.Viper` instance: its decoded settings, the configured
file path and type, the automatic-env flag, and the watch state — viper
stores a SINGLE `onConfigChange` handler (re-registration replaces it), and
each call to `WatchConfig` spawns one more background watcher goroutine,
with no guard against starting several. -/
structure Viper where
  settings : Settings
  configFile : Option String
  configType : Option String
  keyDelim : String
  automaticEnv : Bool
  handlerRegistered : Bool
  watchTasks : Nat
deriving Repr

/-- A fresh viper instance as created by `New` via
`viper.NewWithOptions(viper.KeyDelimiter("_"))`. -/
def emptyViper : Viper :=
  { settings := []
  , configFile := none
  , configType := none
  , keyDelim := "_"
  , automaticEnv := false
  , handlerRegistered := false
  , watchTasks := 0 }

/-- A logging event emitted through the Loader's logger while applying an
option (`WithConfigFile` / `WithConfigReader` log read failures and carry
on). -/
inductive LogEvent where
  | readFileError (path : String)
  | readReaderError
deriving Repr, DecidableEq

/-- Model of `Loader[T]`: the atomic snapshot cell (`config`, where `none`
models the nil `atomic.Pointer` before any successful store), the viper
instance, and the option flags.  The change callback is modelled by its
presence (`onChangeCallback : Bool`); its invocations are traced as events.
The logger is modelled by the accumulated `log` trace. -/
structure Loader (T : Type) where
  config : Option T
  viper : Viper
  disableAutomaticEnv : Bool
  subSection : String
  onChangeCallback : Bool
  disableAutoParse : Bool
  useDefaultFilename : Bool
  log : List LogEvent

/-- The errors `Parse` can return: the wrapped section-not-found error, a
wrapped unmarshal failure for a subsection, and a wrapped unmarshal failure
for the whole configuration. -/
inductive ParseError where
  | sectionNotFound (sec : String)
  | unmarshalSection (sec : String) (msg : String)
  | unmarshalConfig (msg : String)
deriving Repr, DecidableEq

/-- The rendered error message of each `Parse` error, following the
`fmt.Errorf` format strings in the source. -/
def ParseError.message : ParseError → String
  | .sectionNotFound sec => "section not found in config: " ++ sec
  | .unmarshalSection sec msg => "failed to unmarshal section " ++ sec ++ ": " ++ msg
  | .unmarshalConfig msg => "failed to unmarshal config: " ++ msg

/-- Model of `(c *Loader[T]) Parse() error`.  The mapstructure decode is the
black-box parameter `u`.  The Go method mutates the receiver; here it
returns the updated loader together with the optional error.  On any error
path the loader is returned unchanged (the Go code returns before
`c.config.Store`). -/
def Loader.Parse {T : Type} (c : Loader T) (u : Settings → Except String T) :
    Loader T × Option ParseError :=
  if c.subSection ≠ "" then
    match viperSub c.viper.settings c.subSection with
    | none => (c, some (ParseError.sectionNotFound c.subSection))
    | some sub =>
      match u sub with
      | Except.error e => (c, some (ParseError.unmarshalSection c.subSection e))
      | Except.ok cfg => ({ c with config := some cfg }, none)
  else
    match u c.viper.settings with
    | Except.error e => (c, some (ParseError.unmarshalConfig e))
    | Except.ok cfg => ({ c with config := some cfg }, none)

/-- Model of `(c *Loader[T]) Load() T`, i.e. `*c.config.Load()`: returns the
current snapshot.  `none` models the nil-pointer dereference panic that the
Go code hits when `Load` runs before any successful `Parse`. -/
def Loader.Load {T : Type} (c : Loader T) : Option T :=
  c.config

/-- The settings that `Parse` hands to the unmarshal step: the configured
subsection when one is set (`none` when it is missing), the whole settings
map otherwise. -/
def effectiveSettings {T : Type} (c : Loader T) : Option Settings :=
  if c.subSection ≠ "" then viperSub c.viper.settings c.subSection
  else some c.viper.settings

/-- The functional options exported by the package.  `WithConfigReader`
carries the decode result of its stream (the external reader's work);
`WithViperInstance` carries the replacement viper instance;
`WithOnChangeCallback` is modelled by its presence; `WithLogger` swaps the
logger implementation and is a no-op on the modelled state. -/
inductive OptionSpec where
  | withConfigFile (configPath : String)
  | withConfigReader (readResult : Except String Settings) (configType : String)
  | withViperInstance (v : Viper)
  | disableAutomaticEnv
  | withSubSection (sec : String)
  | withOnChangeCallback
  | disableAutoParse
  | withLogger

/-- Whether an option selects a configuration source — exactly the two
options whose Go implementations set `useDefaultFilename = false`. -/
def OptionSpec.isSourceOption : OptionSpec → Bool
  | .withConfigFile _ => true
  | .withConfigReader _ _ => true
  | _ => false

/-- Applying one functional option to a loader, given the filesystem `fs`
(`fs path = none` models `ReadInConfig` failing).  `WithConfigFile` and
`WithConfigReader` log a read failure through the loader's logger and carry
on, leaving the previously loaded settings in place, exactly as the Go
options do. -/
def applyOption (fs : String → Option Settings) (cl : Loader T) :
    OptionSpec → Loader T
  | .withConfigFile path =>
    { cl with useDefaultFilename := false
            , viper := { cl.viper with
                           configFile := some path
                         , settings := match fs path with
                             | some s => s
                             | none => cl.viper.settings }
            , log := cl.log ++ (match fs path with
                | some _ => []
                | none => [LogEvent.readFileError path]) }
  | .withConfigReader readResult configType =>
    { cl with useDefaultFilename := false
            , viper := { cl.viper with
                           configType := some configType
                         , settings := match readResult with
                             | Except.ok s => s
                             | Except.error _ => cl.viper.settings }
            , log := cl.log ++ (match readResult with
                | Except.ok _ => []
                | Except.error _ => [LogEvent.readReaderError]) }
  | .withViperInstance v => { cl with viper := v }
  | .disableAutomaticEnv => { cl with disableAutomaticEnv := true }
  | .withSubSection sec => { cl with subSection := sec }
  | .withOnChangeCallback => { cl with onChangeCallback := true }
  | .disableAutoParse => { cl with disableAutoParse := true }
  | .withLogger => cl

/-- The loader literal that `New` builds before applying any option. -/
def initialLoader (T : Type) : Loader T :=
  { config := none
  , viper := emptyViper
  , disableAutomaticEnv := false
  , subSection := ""
  , onChangeCallback := false
  , disableAutoParse := false
  , useDefaultFilename := true
  , log := [] }

/-- The `AutomaticEnv` step of `New`: enables automatic environment
variables on the viper instance unless disabled. -/
def applyAutomaticEnv (l : Loader T) : Loader T :=
  if l.disableAutomaticEnv then l
  else { l with viper := { l.viper with automaticEnv := true } }

/-- The loader after `New` has applied all user options, in order, to the
fresh loader (the state at the `useDefaultFilename` check). -/
def preLoaderOptsApplied (T : Type) (fs : String → Option Settings)
    (opts : List OptionSpec) : Loader T :=
  opts.foldl (applyOption fs) (initialLoader T)

/-- The loader after `New`'s default-filename step: when no source option
was applied, `WithConfigFile("config.yml")` is applied after all user
options. -/
def preLoaderWithDefaultFile (T : Type) (fs : String → Option Settings)
    (opts : List OptionSpec) : Loader T :=
  if (preLoaderOptsApplied T fs opts).useDefaultFilename
  then applyOption fs (preLoaderOptsApplied T fs opts)
       (OptionSpec.withConfigFile "config.yml")
  else preLoaderOptsApplied T fs opts

/-- The state of the loader in `New` just before the initial `Parse`: user
options, then the default-filename step, then the `AutomaticEnv` step. -/
def preLoader (T : Type) (fs : String → Option Settings)
    (opts : List OptionSpec) : Loader T :=
  applyAutomaticEnv (preLoaderWithDefaultFile T fs opts)

/-- Model of `New[T](opts...)`: builds the pre-parse loader and, unless
`DisableAutoParse` was applied, performs the single initial `Parse`;
`Except.error` models the `panic("Failed to load config: " + err.Error())`
that aborts construction on a parse failure. -/
def New (T : Type) (fs : String → Option Settings) (opts : List OptionSpec)
    (u : Settings → Except String T) : Except String (Loader T) :=
  if (preLoader T fs opts).disableAutoParse then Except.ok (preLoader T fs opts)
  else
    match (preLoader T fs opts).Parse u with
    | (l3, none) => Except.ok l3
    | (_, some e) => Except.error ("Failed to load config: " ++ e.message)

/-- Modelled from the spec: the default-value construction option and its
fallback branch in `New` are part of the repository's documented surface
but absent from the code under src/.  Per the spec, when the initial
auto-parse fails and the caller supplied a default value, construction
silently falls back to that default instead of panicking; the fallback is
exercised only when parsing fails, never when it succeeds.  `dflt` is the
caller-supplied default (`none` when no default was configured); everything
else follows the src `New`. -/
def NewWithDefault (T : Type) (fs : String → Option Settings)
    (opts : List OptionSpec) (dflt : Option T)
    (u : Settings → Except String T) : Except String (Loader T) :=
  if (preLoader T fs opts).disableAutoParse then Except.ok (preLoader T fs opts)
  else
    match (preLoader T fs opts).Parse u with
    | (l3, none) => Except.ok l3
    | (_, some e) =>
      match dflt with
      | some d => Except.ok { preLoader T fs opts with config := some d }
      | none => Except.error ("Failed to load config: " ++ e.message)

/-- Model of `(c *Loader[T]) StartWatcher()`: registers the change handler
into viper's single `onConfigChange` slot (replacing any previously
registered handler) and spawns one more background goroutine that calls
`viper.WatchConfig()`.  The Go method has no guard against being called
twice: every call adds another watcher goroutine. -/
def Loader.StartWatcher (c : Loader T) : Loader T :=
  { c with viper := { c.viper with handlerRegistered := true
                                 , watchTasks := c.viper.watchTasks + 1 } }

/-- How many times viper fires the registered `onConfigChange` handler for a
single file-change event: each `WatchConfig` goroutine watches the file
independently and invokes the (single) registered handler once. -/
def handlerFiringsPerChange (c : Loader T) : Nat :=
  if c.viper.handlerRegistered then c.viper.watchTasks else 0

/-- One step of the trace produced by the change handler that
`StartWatcher` registers: the `Parse` attempt (which stores the new
snapshot on success), the log line, and the optional callback invocation. -/
inductive HandlerStep where
  | parseAttempt (err : Option ParseError)
  | logReloadFailed
  | logReloadOk
  | callbackInvoked (err : Option ParseError)
deriving Repr, DecidableEq

/-- Whether a handler step is the `Parse` attempt. -/
def isParseAttempt : HandlerStep → Bool
  | .parseAttempt _ => true
  | _ => false

/-- Whether a handler step is a callback invocation. -/
def isCallbackStep : HandlerStep → Bool
  | .callbackInvoked _ => true
  | _ => false

/-- Model of the closure `StartWatcher` registers with
`viper.OnConfigChange`: on a change event it calls `Parse`, logs the
outcome, and then — only if a callback is configured — invokes the callback
once with the `Parse` error (nil on success).  Returns the loader after the
attempt together with the ordered trace of what the handler did. -/
def onChangeHandler (c : Loader T) (u : Settings → Except String T) :
    Loader T × List HandlerStep :=
  let (c', err) := c.Parse u
  let logStep := match err with
    | some _ => HandlerStep.logReloadFailed
    | none => HandlerStep.logReloadOk
  let cbSteps := if c'.onChangeCallback
                 then [HandlerStep.callbackInvoked err]
                 else []
  (c', HandlerStep.parseAttempt err :: logStep :: cbSteps)

/-- Runs the registered handler `n` times in sequence (one invocation per
live watcher goroutine), threading the loader state and concatenating the
traces. -/
def iterateHandler (u : Settings → Except String T) :
    Nat → Loader T → Loader T × List HandlerStep
  | 0, c => (c, [])
  | Nat.succ n, c =>
    let (c', evs) := onChangeHandler c u
    let (c'', rest) := iterateHandler u n c'
    (c'', evs ++ rest)

/-- What a single file-change event does to a loader: viper fires the
registered handler once per live watcher goroutine. -/
def processChangeEvent (c : Loader T) (u : Settings → Except String T) :
    Loader T × List HandlerStep :=
  iterateHandler u (handlerFiringsPerChange c) c

/-- A concrete configuration struct for exercising the model, mirroring the
`DatabaseConfig` example type of the repository. -/
structure DBConfig where
  host : String
  port : Int
deriving Repr, DecidableEq

/-- Reads a string field the way mapstructure does: a missing key decodes
to the zero value, a key of the wrong kind is a decode error. -/
def getStr (s : Settings) (k : String) : Except String String :=
  match lookupKey s k with
  | none => Except.ok ""
  | some (ConfigValue.str v) => Except.ok v
  | some _ => Except.error ("cannot decode key " ++ k)

/-- Reads an integer field the way mapstructure does: a missing key decodes
to the zero value, a key of the wrong kind is a decode error. -/
def getInt (s : Settings) (k : String) : Except String Int :=
  match lookupKey s k with
  | none => Except.ok 0
  | some (ConfigValue.num v) => Except.ok v
  | some _ => Except.error ("cannot decode key " ++ k)

/-- The black-box unmarshal step instantiated for `DBConfig`. -/
def decodeDB (s : Settings) : Except String DBConfig := do
  let h ← getStr s "host"
  let p ← getInt s "port"
  return { host := h, port := p }

/-- A sample decoded source, as in the repository's examples. -/
def sampleSettings : Settings :=
  [("host", ConfigValue.str "localhost"), ("port", ConfigValue.num 5432)]

/-- A filesystem on which every read fails. -/
def fsEmpty : String → Option Settings := fun _ => none

/-- A filesystem holding exactly the default `config.yml`. -/
def fsSample : String → Option Settings :=
  fun p => if p = "config.yml" then some sampleSettings else none

/-- A concrete loader over `DBConfig` whose viper already holds the sample
settings and whose change callback is configured. -/
def dbLoaderBase : Loader DBConfig :=
  { initialLoader DBConfig with
      viper := { emptyViper with settings := sampleSettings }
    , onChangeCallback := true
    , useDefaultFilename := false }

/-- The same loader restricted to a subsection that the sample settings do
not contain. -/
def dbLoaderMissingSection : Loader DBConfig :=
  { dbLoaderBase with subSection := "databaseConfig" }

/-- The loader after two `StartWatcher` calls. -/
def watchedTwice : Loader DBConfig :=
  dbLoaderBase.StartWatcher.StartWatcher

/-- The loader `New` builds when the only option names a file that cannot
be read. -/
def missingFileLoader : Loader DBConfig :=
  preLoader DBConfig fsEmpty [OptionSpec.withConfigFile "missing.yml"]

/-- A concrete default value for the default-fallback scenario. -/
def dbDefault : DBConfig := { host := "fallback", port := 1 }

/-- Options that read an empty stream and then select a subsection the
stream does not contain: the initial `Parse` fails. -/
def opts6 : List OptionSpec :=
  [OptionSpec.withConfigReader (Except.ok []) "yaml",
   OptionSpec.withSubSection "databaseConfig"]

/-- Options that select no source, so the default filename stays active. -/
def opts9 : List OptionSpec :=
  [OptionSpec.withSubSection "db", OptionSpec.withOnChangeCallback]

/-- An unmarshal step that always fails, for exercising the unmarshal error
path. -/
def decodeFail : Settings → Except String DBConfig :=
  fun _ => Except.error "boom"

/-- Characterization of `Parse`: it decodes the effective settings (the
subsection when one is configured, the whole map otherwise), stores the
decoded value on success, and returns the loader unchanged with the
appropriate wrapped error on failure. -/
theorem parse_spec {T : Type} (c : Loader T) (u : Settings → Except String T) :
    c.Parse u = match effectiveSettings c with
      | none => (c, some (ParseError.sectionNotFound c.subSection))
      | some s => match u s with
        | Except.error e =>
          (c, some (if c.subSection ≠ ""
                    then ParseError.unmarshalSection c.subSection e
                    else ParseError.unmarshalConfig e))
        | Except.ok cfg => ({ c with config := some cfg }, none) := by
  unfold Loader.Parse effectiveSettings
  by_cases hne : c.subSection ≠ ""
  · simp only [if_pos hne]
  · simp only [if_neg hne]

/-- `Parse` never changes whether a change callback is configured. -/
theorem parse_fst_onChangeCallback {T : Type} (c : Loader T)
    (u : Settings → Except String T) :
    ((c.Parse u).fst).onChangeCallback = c.onChangeCallback := by
  unfold Loader.Parse
  by_cases hne : c.subSection ≠ ""
  · simp only [if_pos hne]
    split
    · rfl
    · split <;> rfl
  · simp only [if_neg hne]
    split <;> rfl

/-- No functional option touches the snapshot cell. -/
theorem applyOption_config {T : Type} (fs : String → Option Settings)
    (c : Loader T) (o : OptionSpec) : (applyOption fs c o).config = c.config := by
  cases o <;> rfl

/-- Folding any option list over a loader leaves the snapshot cell as it
was. -/
theorem foldl_applyOption_config {T : Type} (fs : String → Option Settings)
    (opts : List OptionSpec) : ∀ (c : Loader T),
    (opts.foldl (applyOption fs) c).config = c.config := by
  induction opts with
  | nil => intro c; rfl
  | cons o rest ih =>
    intro c
    rw [List.foldl_cons, ih, applyOption_config]

/-- The `AutomaticEnv` step does not touch the snapshot cell. -/
theorem applyAutomaticEnv_config {T : Type} (l : Loader T) :
    (applyAutomaticEnv l).config = l.config := by
  unfold applyAutomaticEnv
  split <;> rfl

/-- The loader `New` builds before its initial `Parse` holds no snapshot:
its atomic pointer is still nil. -/
theorem preLoader_config (T : Type) (fs : String → Option Settings)
    (opts : List OptionSpec) : (preLoader T fs opts).config = none := by
  unfold preLoader
  rw [applyAutomaticEnv_config]
  unfold preLoaderWithDefaultFile preLoaderOptsApplied
  split
  · rw [applyOption_config, foldl_applyOption_config]
    rfl
  · rw [foldl_applyOption_config]
    rfl

/-- Options other than `WithConfigFile` and `WithConfigReader` leave the
`useDefaultFilename` flag as it was. -/
theorem applyOption_useDefaultFilename {T : Type} (fs : String → Option Settings)
    (c : Loader T) (o : OptionSpec) (h : o.isSourceOption = false) :
    (applyOption fs c o).useDefaultFilename = c.useDefaultFilename := by
  cases o <;> simp_all [OptionSpec.isSourceOption, applyOption]

/-- Folding a list of non-source options preserves the `useDefaultFilename`
flag. -/
theorem foldl_useDefaultFilename {T : Type} (fs : String → Option Settings)
    (opts : List OptionSpec) : ∀ (c : Loader T),
    opts.all (fun o => !o.isSourceOption) = true →
    (opts.foldl (applyOption fs) c).useDefaultFilename = c.useDefaultFilename := by
  induction opts with
  | nil => intro c _; rfl
  | cons o rest ih =>
    intro c h
    simp only [List.all_cons, Bool.and_eq_true, Bool.not_eq_true'] at h
    rw [List.foldl_cons, ih _ h.2, applyOption_useDefaultFilename fs c o h.1]

/-- The `AutomaticEnv` step does not touch the configured file path. -/
theorem applyAutomaticEnv_viper_configFile {T : Type} (l : Loader T) :
    (applyAutomaticEnv l).viper.configFile = l.viper.configFile := by
  unfold applyAutomaticEnv
  split <;> rfl

/-- A successful `Parse` stored exactly the value decoded from the
effective settings. -/
theorem parse_success_load {T : Type} (c : Loader T)
    (u : Settings → Except String T) (h : (c.Parse u).snd = none) :
    ∃ s v, effectiveSettings c = some s ∧ u s = Except.ok v ∧
      (c.Parse u).fst = { c with config := some v } := by
  rw [parse_spec] at h ⊢
  rcases hs : effectiveSettings c with _ | s
  · simp only [hs] at h
    simp at h
  · simp only [hs] at h ⊢
    rcases hu : u s with e' | v
    · simp only [hu] at h
      simp at h
    · simp only [hu] at h ⊢
      exact ⟨s, v, rfl, hu, rfl⟩

/-- Claim C1 counterexample: `StartWatcher` is not guarded.  On a concrete
loader, calling it twice leaves two live background watch tasks — not one —
so the second call has an additional effect, and a single file-change event
runs the registered handler (and hence `Parse`) twice. -/
theorem C1_counterexample :
    watchedTwice.viper.watchTasks = 2 ∧
    watchedTwice.viper.watchTasks ≠ (dbLoaderBase.StartWatcher).viper.watchTasks ∧
    ((processChangeEvent watchedTwice decodeDB).snd.filter isParseAttempt).length = 2 := by
  refine ⟨rfl, ?_, rfl⟩
  decide

/-- Claim C1 (amended): `StartWatcher` has no one-shot guard.  Every call
re-registers the change handler into the notifier's single handler slot
(replacing the previous registration, so the handler itself is never
duplicated) and spawns one more background watch task; after two calls a
single file-change event fires the handler once per task, i.e. two more
times than before the calls. -/
theorem C1_watcher_no_guard {T : Type} (c : Loader T) :
    (c.StartWatcher).viper.handlerRegistered = true ∧
    (c.StartWatcher).viper.watchTasks = c.viper.watchTasks + 1 ∧
    handlerFiringsPerChange (c.StartWatcher.StartWatcher) = c.viper.watchTasks + 2 :=
  ⟨rfl, rfl, rfl⟩

/-- Claim C2: whenever `Parse` returns an error — section not found or an
unmarshal failure — the loader, and in particular the stored snapshot that
`Load` returns, is exactly what it was before the call. -/
theorem C2_parse_failure_keeps_snapshot {T : Type} (c : Loader T)
    (u : Settings → Except String T) (e : ParseError)
    (h : (c.Parse u).snd = some e) :
    (c.Parse u).fst = c ∧ (c.Parse u).fst.Load = c.Load := by
  rw [parse_spec] at h ⊢
  rcases hs : effectiveSettings c with _ | s
  · simp only [hs] at h ⊢
    constructor <;> trivial
  · simp only [hs] at h ⊢
    rcases hu : u s with e' | v
    · simp only [hu] at h ⊢
      constructor <;> trivial
    · simp only [hu] at h
      simp at h

/-- Claim C2 witness: a concrete failed `Parse` (missing subsection) leaves
the loader and its snapshot untouched. -/
theorem C2_witness :
    (dbLoaderMissingSection.Parse decodeDB).fst = dbLoaderMissingSection ∧
    (dbLoaderMissingSection.Parse decodeDB).fst.Load = dbLoaderMissingSection.Load :=
  C2_parse_failure_keeps_snapshot dbLoaderMissingSection decodeDB
    (ParseError.sectionNotFound "databaseConfig") rfl

/-- Claim C3: after a `Parse` that returns no error, `Load` returns exactly
the value the structured-source reader decoded during that `Parse` — the
decode of the effective (possibly subsection-filtered) settings. -/
theorem C3_parse_success_roundtrip {T : Type} (c : Loader T)
    (u : Settings → Except String T) (h : (c.Parse u).snd = none) :
    ∃ s v, effectiveSettings c = some s ∧ u s = Except.ok v ∧
      (c.Parse u).fst = { c with config := some v } ∧
      (c.Parse u).fst.Load = some v := by
  obtain ⟨s, v, hs, hu, hfst⟩ := parse_success_load c u h
  exact ⟨s, v, hs, hu, hfst, by rw [hfst]; rfl⟩

/-- Claim C3 witness: a concrete successful `Parse` round-trips the sample
settings into the snapshot `Load` returns. -/
theorem C3_witness :
    ∃ s v, effectiveSettings dbLoaderBase = some s ∧ decodeDB s = Except.ok v ∧
      (dbLoaderBase.Parse decodeDB).fst = { dbLoaderBase with config := some v } ∧
      (dbLoaderBase.Parse decodeDB).fst.Load = some v :=
  C3_parse_success_roundtrip dbLoaderBase decodeDB rfl

/-- Claim C4: when a subsection is configured and the decoded source does
not contain it, `Parse` returns the wrapped section-not-found error whose
message contains the configured section name, and stores no new snapshot
(the loader is returned unchanged). -/
theorem C4_missing_section_parse_error {T : Type} (c : Loader T)
    (u : Settings → Except String T) (h1 : c.subSection ≠ "")
    (h2 : viperSub c.viper.settings c.subSection = none) :
    c.Parse u = (c, some (ParseError.sectionNotFound c.subSection)) ∧
    ∃ pre, (ParseError.sectionNotFound c.subSection).message =
      pre ++ c.subSection := by
  have hs : effectiveSettings c = none := by
    unfold effectiveSettings
    rw [if_pos h1]
    exact h2
  rw [parse_spec, hs]
  exact ⟨rfl, ⟨"section not found in config: ", rfl⟩⟩

/-- Claim C4 witness: the sample loader restricted to the absent
`databaseConfig` subsection fails with the named section-not-found error. -/
theorem C4_witness :
    dbLoaderMissingSection.Parse decodeDB =
      (dbLoaderMissingSection,
       some (ParseError.sectionNotFound dbLoaderMissingSection.subSection)) ∧
    ∃ pre, (ParseError.sectionNotFound dbLoaderMissingSection.subSection).message =
      pre ++ dbLoaderMissingSection.subSection :=
  C4_missing_section_parse_error dbLoaderMissingSection decodeDB (by decide) rfl

/-- Claim C5: the change handler registered by `StartWatcher` performs one
`Parse` per invocation; when a callback is configured it is invoked exactly
once, with the `Parse` result (nil on success), strictly after the parse
attempt (which already stored the new snapshot on success and left it
unchanged on failure) — and when no callback is configured, no callback
invocation occurs at all. -/
theorem C5_change_callback_dispatch {T : Type} (c : Loader T)
    (u : Settings → Except String T) :
    (onChangeHandler c u).fst = (c.Parse u).fst ∧
    (onChangeHandler c u).snd.filter isCallbackStep =
      (if c.onChangeCallback then [HandlerStep.callbackInvoked (c.Parse u).snd]
       else []) ∧
    (onChangeHandler c u).snd.head? =
      some (HandlerStep.parseAttempt (c.Parse u).snd) ∧
    (c.onChangeCallback = true →
      (onChangeHandler c u).snd.getLast? =
        some (HandlerStep.callbackInvoked (c.Parse u).snd)) := by
  have hcb := parse_fst_onChangeCallback c u
  rcases hp : c.Parse u with ⟨c', err⟩
  rw [hp] at hcb
  unfold onChangeHandler
  rw [hp]
  cases err with
  | none =>
    cases hc : c.onChangeCallback <;>
      simp_all [isCallbackStep, List.getLast?, List.filter]
  | some e =>
    cases hc : c.onChangeCallback <;>
      simp_all [isCallbackStep, List.getLast?, List.filter]

/-- Claim C5 witness: on the concrete loader with a configured callback,
one handler invocation yields exactly one callback step carrying the
`Parse` result, last in the trace. -/
theorem C5_witness :
    (onChangeHandler dbLoaderBase decodeDB).fst = (dbLoaderBase.Parse decodeDB).fst ∧
    (onChangeHandler dbLoaderBase decodeDB).snd.filter isCallbackStep =
      [HandlerStep.callbackInvoked (dbLoaderBase.Parse decodeDB).snd] ∧
    (onChangeHandler dbLoaderBase decodeDB).snd.head? =
      some (HandlerStep.parseAttempt (dbLoaderBase.Parse decodeDB).snd) ∧
    (onChangeHandler dbLoaderBase decodeDB).snd.getLast? =
      some (HandlerStep.callbackInvoked (dbLoaderBase.Parse decodeDB).snd) :=
  ⟨(C5_change_callback_dispatch dbLoaderBase decodeDB).1,
   (C5_change_callback_dispatch dbLoaderBase decodeDB).2.1,
   (C5_change_callback_dispatch dbLoaderBase decodeDB).2.2.1,
   (C5_change_callback_dispatch dbLoaderBase decodeDB).2.2.2 rfl⟩

/-- Claim C6: with auto-parse enabled, construction performs the single
initial `Parse` and stores exactly its result; when that `Parse` fails and
a default value was configured (the default-value option is modelled from
the spec in `NewWithDefault`, being absent from src/), construction
succeeds and `Load` returns the default unchanged with no error surfaced;
when no default was configured, construction aborts via the panic, both in
the spec-modelled constructor and in the src `New`. -/
theorem C6_construction_autoparse_policy {T : Type} :
    (∀ (fs : String → Option Settings) (opts : List OptionSpec)
        (u : Settings → Except String T) (l' : Loader T),
        (preLoader T fs opts).disableAutoParse = false →
        (preLoader T fs opts).Parse u = (l', none) →
        New T fs opts u = Except.ok l') ∧
    (∀ (fs : String → Option Settings) (opts : List OptionSpec)
        (u : Settings → Except String T) (d : T) (e : ParseError),
        (preLoader T fs opts).disableAutoParse = false →
        ((preLoader T fs opts).Parse u).snd = some e →
        NewWithDefault T fs opts (some d) u =
          Except.ok { preLoader T fs opts with config := some d } ∧
        ({ preLoader T fs opts with config := some d } : Loader T).Load = some d ∧
        NewWithDefault T fs opts none u =
          Except.error ("Failed to load config: " ++ e.message) ∧
        New T fs opts u = Except.error ("Failed to load config: " ++ e.message)) := by
  constructor
  · intro fs opts u l' h1 h2
    unfold New
    simp [h1, h2]
  · intro fs opts u d e h1 h2
    rcases hq : (preLoader T fs opts).Parse u with ⟨l3, err⟩
    rw [hq] at h2
    have h2' : err = some e := h2
    subst h2'
    refine ⟨?_, rfl, ?_, ?_⟩
    · unfold NewWithDefault
      rw [hq]
      simp [h1]
    · unfold NewWithDefault
      rw [hq]
      simp [h1]
    · unfold New
      rw [hq]
      simp [h1]

/-- Claim C6 witness: a successful auto-parse stores the parsed snapshot;
a failing auto-parse with the concrete default falls back to it, and
without a default aborts with the panic message. -/
theorem C6_witness :
    New DBConfig fsSample [] decodeDB =
      Except.ok ((preLoader DBConfig fsSample []).Parse decodeDB).fst ∧
    (NewWithDefault DBConfig fsEmpty opts6 (some dbDefault) decodeDB =
      Except.ok { preLoader DBConfig fsEmpty opts6 with config := some dbDefault } ∧
     ({ preLoader DBConfig fsEmpty opts6 with
          config := some dbDefault } : Loader DBConfig).Load = some dbDefault ∧
     NewWithDefault DBConfig fsEmpty opts6 none decodeDB =
       Except.error ("Failed to load config: " ++
         (ParseError.sectionNotFound "databaseConfig").message) ∧
     New DBConfig fsEmpty opts6 decodeDB =
       Except.error ("Failed to load config: " ++
         (ParseError.sectionNotFound "databaseConfig").message)) :=
  ⟨(@C6_construction_autoparse_policy DBConfig).1 fsSample [] decodeDB
     ((preLoader DBConfig fsSample []).Parse decodeDB).fst rfl rfl,
   (@C6_construction_autoparse_policy DBConfig).2 fsEmpty opts6 decodeDB dbDefault
     (ParseError.sectionNotFound "databaseConfig") rfl rfl⟩

/-- Claim C7 counterexample: a failure to read the configured source does
NOT surface as a `Parse` error.  On a concrete loader whose config file
cannot be read, the failure is only logged by the option, and the
subsequent `Parse` returns nil and stores the zero-valued decode of the
empty source. -/
theorem C7_counterexample :
    missingFileLoader.log = [LogEvent.readFileError "missing.yml"] ∧
    (missingFileLoader.Parse decodeDB).snd = none ∧
    (missingFileLoader.Parse decodeDB).fst.Load = some { host := "", port := 0 } :=
  ⟨rfl, rfl, rfl⟩

/-- Claim C7 (amended): `Parse` returns the section-not-found and unmarshal
error classes as single wrapped errors and, being a total function of the
state, never panics; source-read failures, however, never reach `Parse`:
`WithConfigFile` and `WithConfigReader` log the failure at option time and
leave the previously loaded settings unchanged, so `Parse` afterwards just
decodes whatever settings were already in place. -/
theorem C7_parse_error_wrapping {T : Type} :
    (∀ (c : Loader T) (u : Settings → Except String T) (e : ParseError),
        (c.Parse u).snd = some e →
        (∃ sec, e = ParseError.sectionNotFound sec ∧
            e.message = "section not found in config: " ++ sec) ∨
        (∃ sec m, e = ParseError.unmarshalSection sec m ∧
            e.message = "failed to unmarshal section " ++ sec ++ ": " ++ m) ∨
        (∃ m, e = ParseError.unmarshalConfig m ∧
            e.message = "failed to unmarshal config: " ++ m)) ∧
    (∀ (fs : String → Option Settings) (p : String) (c : Loader T),
        fs p = none →
        (applyOption fs c (OptionSpec.withConfigFile p)).viper.settings =
          c.viper.settings ∧
        (applyOption fs c (OptionSpec.withConfigFile p)).log =
          c.log ++ [LogEvent.readFileError p]) ∧
    (∀ (fs : String → Option Settings) (m ct : String) (c : Loader T),
        (applyOption fs c
            (OptionSpec.withConfigReader (Except.error m) ct)).viper.settings =
          c.viper.settings ∧
        (applyOption fs c
            (OptionSpec.withConfigReader (Except.error m) ct)).log =
          c.log ++ [LogEvent.readReaderError]) := by
  refine ⟨?_, ?_, ?_⟩
  · intro c u e _
    cases e with
    | sectionNotFound sec => exact Or.inl ⟨sec, rfl, rfl⟩
    | unmarshalSection sec m => exact Or.inr (Or.inl ⟨sec, m, rfl, rfl⟩)
    | unmarshalConfig m => exact Or.inr (Or.inr ⟨m, rfl, rfl⟩)
  · intro fs p c h
    simp [applyOption, h]
  · intro fs m ct c
    exact ⟨rfl, rfl⟩

/-- Claim C7 witness: a concrete unmarshal failure is a wrapped
unmarshal-config error; a concrete unreadable file and a concrete failing
reader are logged and leave the settings in place. -/
theorem C7_wrapping_witness :
    ((∃ sec, ParseError.unmarshalConfig "boom" = ParseError.sectionNotFound sec ∧
        (ParseError.unmarshalConfig "boom").message =
          "section not found in config: " ++ sec) ∨
     (∃ sec m, ParseError.unmarshalConfig "boom" = ParseError.unmarshalSection sec m ∧
        (ParseError.unmarshalConfig "boom").message =
          "failed to unmarshal section " ++ sec ++ ": " ++ m) ∨
     (∃ m, ParseError.unmarshalConfig "boom" = ParseError.unmarshalConfig m ∧
        (ParseError.unmarshalConfig "boom").message =
          "failed to unmarshal config: " ++ m)) ∧
    ((applyOption fsEmpty dbLoaderBase
        (OptionSpec.withConfigFile "missing.yml")).viper.settings =
      dbLoaderBase.viper.settings ∧
     (applyOption fsEmpty dbLoaderBase
        (OptionSpec.withConfigFile "missing.yml")).log =
      dbLoaderBase.log ++ [LogEvent.readFileError "missing.yml"]) ∧
    ((applyOption fsEmpty dbLoaderBase
        (OptionSpec.withConfigReader (Except.error "oops") "json")).viper.settings =
      dbLoaderBase.viper.settings ∧
     (applyOption fsEmpty dbLoaderBase
        (OptionSpec.withConfigReader (Except.error "oops") "json")).log =
      dbLoaderBase.log ++ [LogEvent.readReaderError]) :=
  ⟨(@C7_parse_error_wrapping DBConfig).1 dbLoaderBase decodeFail
     (ParseError.unmarshalConfig "boom") rfl,
   (@C7_parse_error_wrapping DBConfig).2.1 fsEmpty "missing.yml" dbLoaderBase rfl,
   (@C7_parse_error_wrapping DBConfig).2.2 fsEmpty "oops" "json" dbLoaderBase⟩

/-- Claim C8: with `DisableAutoParse` set, `New` returns the loader with an
empty snapshot cell, so a `Load` before any successful `Parse` dereferences
the nil atomic pointer (modelled as `none`) and panics; and after any
successful `Parse` the snapshot cell is populated, so `Load` is total. -/
theorem C8_load_totality {T : Type} :
    (∀ (fs : String → Option Settings) (opts : List OptionSpec)
        (u : Settings → Except String T),
        (preLoader T fs opts).disableAutoParse = true →
        New T fs opts u = Except.ok (preLoader T fs opts) ∧
        (preLoader T fs opts).Load = none) ∧
    (∀ (c : Loader T) (u : Settings → Except String T),
        (c.Parse u).snd = none → ((c.Parse u).fst.Load).isSome = true) := by
  constructor
  · intro fs opts u h
    constructor
    · unfold New
      simp [h]
    · unfold Loader.Load
      exact preLoader_config T fs opts
  · intro c u h
    obtain ⟨s, v, _, _, hfst⟩ := parse_success_load c u h
    rw [hfst]
    rfl

/-- Claim C8 witness: a concrete `New` with `DisableAutoParse` yields a
loader whose `Load` is `none` (the nil dereference), while after the
concrete successful `Parse` the snapshot is present. -/
theorem C8_witness :
    (New DBConfig fsEmpty [OptionSpec.disableAutoParse] decodeDB =
       Except.ok (preLoader DBConfig fsEmpty [OptionSpec.disableAutoParse]) ∧
     (preLoader DBConfig fsEmpty [OptionSpec.disableAutoParse]).Load = none) ∧
    ((dbLoaderBase.Parse decodeDB).fst.Load).isSome = true :=
  ⟨(@C8_load_totality DBConfig).1 fsEmpty [OptionSpec.disableAutoParse] decodeDB rfl,
   (@C8_load_totality DBConfig).2 dbLoaderBase decodeDB rfl⟩

/-- Claim C9: when no option list entry is a source option
(`WithConfigFile` / `WithConfigReader`), the `useDefaultFilename` flag is
still set after all user options, and `New` therefore applies
`WithConfigFile("config.yml")` after them, selecting `config.yml` as the
configured file. -/
theorem C9_default_filename {T : Type} (fs : String → Option Settings)
    (opts : List OptionSpec)
    (h : opts.all (fun o => !o.isSourceOption) = true) :
    (preLoaderOptsApplied T fs opts).useDefaultFilename = true ∧
    (preLoader T fs opts).viper.configFile = some "config.yml" := by
  have h1 : (preLoaderOptsApplied T fs opts).useDefaultFilename = true := by
    unfold preLoaderOptsApplied
    rw [foldl_useDefaultFilename fs opts (initialLoader T) h]
    rfl
  refine ⟨h1, ?_⟩
  unfold preLoader
  rw [applyAutomaticEnv_viper_configFile]
  unfold preLoaderWithDefaultFile
  rw [if_pos h1]
  rfl

/-- Claim C9 witness: a concrete loader built with only non-source options
ends up configured on `config.yml`. -/
theorem C9_witness :
    (preLoaderOptsApplied DBConfig fsSample opts9).useDefaultFilename = true ∧
    (preLoader DBConfig fsSample opts9).viper.configFile = some "config.yml" :=
  C9_default_filename fsSample opts9 rfl

/-- Claim C10: `WithViperInstance` does not clear the `useDefaultFilename`
flag, so with it as the only source-selecting option `New` still applies
`WithConfigFile("config.yml")` to the caller-supplied viper instance; and a
`WithConfigFile` or `WithConfigReader` applied before `WithViperInstance`
is discarded wholesale, because the option replaces the entire viper
instance (only the env step touches it afterwards). -/
theorem C10_viper_instance_option {T : Type} (fs : String → Option Settings)
    (v : Viper) (p : String) (readResult : Except String Settings) (ct : String) :
    (preLoader T fs [OptionSpec.withViperInstance v]).viper.configFile =
      some "config.yml" ∧
    (preLoader T fs [OptionSpec.withViperInstance v]).viper.settings =
      (match fs "config.yml" with | some s => s | none => v.settings) ∧
    (preLoader T fs [OptionSpec.withConfigFile p,
        OptionSpec.withViperInstance v]).viper = { v with automaticEnv := true } ∧
    (preLoader T fs [OptionSpec.withConfigReader readResult ct,
        OptionSpec.withViperInstance v]).viper = { v with automaticEnv := true } :=
  ⟨rfl, rfl, rfl, rfl⟩
